import Mathlib

/-!
Verification development for the pyrateview plotting scripts.

The Python sources are shallowly embedded: pure numeric helpers become
functions over `ℚ` or `ℝ`, Python `assert` failures and raised exceptions
become `Except.error`, the file system is the list of existing paths, and
the host visualization toolkit (paraview) is an abstract oracle supplying
handles, point data and scalar ranges.  Machine floats are modelled by exact
arithmetic.
-/

namespace Pyrateview

/-! ### utils.py — numeric helpers -/

/-- Python's one-argument `round`, embedded over the rationals: round half to
even (banker's rounding). -/
def pyRound (q : ℚ) : ℤ :=
  let f : ℤ := ⌊q⌋
  let r : ℚ := q - f
  if r < 1/2 then f
  else if 1/2 < r then f + 1
  else if f % 2 = 0 then f else f + 1

/-- utils.myround: `int(base * fx(float(x) / base))` where `fx` is `math.ceil`
when choice == "up", `math.floor` when choice == "down", and builtin `round`
otherwise (the Python default for `choice` is None). -/
def myround (x : ℚ) (base : ℤ) (choice : Option String) : ℤ :=
  let fx : ℚ → ℤ :=
    if choice = some "up" then fun q => ⌈q⌉
    else if choice = some "down" then fun q => ⌊q⌋
    else pyRound
  base * fx (x / base)

/-- utils.translate_point: indexes `data[0]`, `data[1]`, `data[2]`; a list
with fewer than three elements raises IndexError (`none`), otherwise the
result is `[(data[0]-x0)*scale, (data[1]-y0)*scale, (data[2]-z0)*scale]`.
The Python defaults are `x0 = y0 = z0 = 0` and `scale = 1`. -/
def translate_point (data : List ℚ) (x0 y0 z0 scale : ℚ) : Option (List ℚ) :=
  match data with
  | d0 :: d1 :: d2 :: _ =>
      some [(d0 - x0) * scale, (d1 - y0) * scale, (d2 - z0) * scale]
  | _ => none

/-! ### main.py — argument checking, setup and the entry point

The file system is modelled as the list of existing paths; `os.path.exists`
is list membership and `os.mkdir` prepends a path.  `assert` statements that
fail become `Except.error` carrying the assertion message. -/

/-- The parsed command-line arguments produced by main.parse_args before the
`check` call: `fid_out` is `None` unless the user supplied `-f`. -/
structure Args where
  fid : String
  cfg_fid : String
  movie : Bool
  verbose : Bool
  output : String
  fid_out : Option String
deriving DecidableEq

/-- main.check: unless `--movie` was given, assert that `fid` exists; create
the output directory when missing; default `fid_out` to `fid + ".png"`. -/
def check (args : Args) (fs : List String) : Except String (Args × List String) :=
  if args.movie = false ∧ args.fid ∉ fs then
    Except.error (args.fid ++ " does not exist")
  else
    let fs1 := if args.output ∈ fs then fs else args.output :: fs
    let out := match args.fid_out with
      | none => args.fid ++ ".png"
      | some s => s
    Except.ok ({ args with fid_out := some out }, fs1)

/-- main.setup: assert that the configuration file exists.  The remainder of
setup (module import, render-view creation, layout sizing) is host-toolkit
work with no effect on the embedded state. -/
def setup (cfg_fid : String) (fs : List String) : Except String Unit :=
  if cfg_fid ∈ fs then Except.ok ()
  else Except.error ("PyrateView requires a valid .py configuration file: " ++ cfg_fid)

/-- The two top-level plotting routines defined in main.py. -/
inductive Routine
  | cartesian
  | movieFrame
deriving DecidableEq

/-- The module-level `__main__` block of main.py: `parse_args` (whose tail is
`check`), then `setup(cfg_fid=args.cfg_fid)`, then the call `movie_frame()` —
the source calls `movie_frame` unconditionally. -/
def mainEntry (args : Args) (fs : List String) :
    Except String (Routine × Args × List String) :=
  match check args fs with
  | Except.error e => Except.error e
  | Except.ok r =>
    match setup r.1.cfg_fid r.2 with
    | Except.error e => Except.error e
    | Except.ok _ => Except.ok (Routine.movieFrame, r.1, r.2)

/-! ### Claims about main.py (C1, C2, C10) -/

/-- A non-movie invocation with both files present, used to exhibit the
entry-point dispatch behaviour. -/
def argsNoMovie : Args :=
  { fid := "model.vtk", cfg_fid := "config.py", movie := false,
    verbose := false, output := "output", fid_out := none }

/-- A file system where the model file and the configuration file exist. -/
def fsBoth : List String := ["model.vtk", "config.py"]

/-- C1 counterexample: on a run without the movie option, the entry point
still executes the render-movie-frames routine, never the cartesian one. -/
theorem C1_counterexample :
    argsNoMovie.movie = false ∧
    (mainEntry argsNoMovie fsBoth).map (fun r => r.1) =
      Except.ok Routine.movieFrame ∧
    (mainEntry argsNoMovie fsBoth).map (fun r => r.1) ≠
      Except.ok Routine.cartesian := by
  refine ⟨rfl, rfl, ?_⟩
  intro h
  rw [show (mainEntry argsNoMovie fsBoth).map (fun r => r.1) =
        Except.ok Routine.movieFrame from rfl] at h
  injection h with h1
  exact Routine.noConfusion h1

/-- C1 (amended): every invocation that survives argument checking and
configuration loading runs the render-movie-frames routine, regardless of the
movie flag; the cartesian routine is never dispatched. -/
theorem C1_always_movie_frame (args : Args) (fs : List String)
    (out : Routine × Args × List String)
    (h : mainEntry args fs = Except.ok out) : out.1 = Routine.movieFrame := by
  unfold mainEntry at h
  cases hc : check args fs with
  | error e => rw [hc] at h; exact absurd h (by simp)
  | ok r =>
    rw [hc] at h
    dsimp only at h
    cases hs : setup r.1.cfg_fid r.2 with
    | error e => rw [hs] at h; exact absurd h (by simp)
    | ok u =>
      rw [hs] at h
      simp only [Except.ok.injEq] at h
      rw [← h]

/-- Witness for C1_always_movie_frame at a concrete invocation. -/
theorem C1_witness :
    (Routine.movieFrame, { argsNoMovie with fid_out := some "model.vtk.png" },
        ("output" :: fsBoth)).1 = Routine.movieFrame :=
  C1_always_movie_frame argsNoMovie fsBoth _ rfl

/-- A movie-mode invocation whose positional path names no existing file. -/
def argsMovieMissing : Args :=
  { fid := "frames_*.inp", cfg_fid := "config.py", movie := true,
    verbose := false, output := "output", fid_out := none }

/-- A file system containing the configuration file but not the input path. -/
def fsCfgOnly : List String := ["config.py"]

/-- C2 counterexample: in movie mode the input-file existence assertion is
skipped, so a run whose positional path names no existing file completes
startup without aborting. -/
theorem C2_counterexample :
    argsMovieMissing.fid ∉ fsCfgOnly ∧
    (mainEntry argsMovieMissing fsCfgOnly).isOk = true := by
  constructor
  · decide
  · rfl

/-- C2 (amended): startup always asserts the configuration file's existence,
but asserts the input file's existence only when the movie flag is unset: a
non-movie run with a missing input file aborts before any plotting, and a run
whose configuration path does not exist (and is not created as the output
directory) aborts as well. -/
theorem C2_startup_asserts (args : Args) (fs : List String) :
    (args.movie = false → args.fid ∉ fs →
      mainEntry args fs = Except.error (args.fid ++ " does not exist")) ∧
    (args.cfg_fid ∉ fs → args.cfg_fid ≠ args.output →
      (mainEntry args fs).isOk = false) := by
  constructor
  · intro hm hf
    have hc : check args fs = Except.error (args.fid ++ " does not exist") := by
      unfold check
      rw [if_pos ⟨hm, hf⟩]
    unfold mainEntry
    rw [hc]
  · intro hcfg hout
    unfold mainEntry
    cases hc : check args fs with
    | error e => rfl
    | ok r =>
      have hr : r = ({ args with fid_out := some (match args.fid_out with
            | none => args.fid ++ ".png"
            | some s => s) },
          if args.output ∈ fs then fs else args.output :: fs) := by
        unfold check at hc
        split at hc
        · exact absurd hc (by simp)
        · simp only [Except.ok.injEq] at hc
          exact hc.symm
      have hr2 : args.cfg_fid ∉ r.2 := by
        rw [hr]
        by_cases h2 : args.output ∈ fs
        · simpa [h2] using hcfg
        · simp only [h2, if_neg, if_false]
          intro hmem
          rcases List.mem_cons.mp hmem with h | h
          · exact hout h
          · exact hcfg h
      have hcfg1 : r.1.cfg_fid = args.cfg_fid := by rw [hr]
      have hs : setup r.1.cfg_fid r.2 = Except.error
          ("PyrateView requires a valid .py configuration file: " ++
            r.1.cfg_fid) := by
        unfold setup
        rw [if_neg (hcfg1 ▸ hr2)]
      dsimp only
      rw [hs]
      rfl

/-- Witness for C2_startup_asserts at concrete invocations: a non-movie run
with a missing input aborts, and a movie run with a missing configuration
file aborts. -/
theorem C2_witness :
    mainEntry { fid := "gone.vtk", cfg_fid := "config.py", movie := false,
                verbose := false, output := "output", fid_out := none }
      ["config.py"] = Except.error ("gone.vtk" ++ " does not exist") ∧
    (mainEntry { fid := "frames_*.inp", cfg_fid := "config.py", movie := true,
                 verbose := false, output := "output", fid_out := none }
      []).isOk = false :=
  ⟨(C2_startup_asserts
      { fid := "gone.vtk", cfg_fid := "config.py", movie := false,
        verbose := false, output := "output", fid_out := none }
      ["config.py"]).1 rfl (by decide),
   (C2_startup_asserts
      { fid := "frames_*.inp", cfg_fid := "config.py", movie := true,
        verbose := false, output := "output", fid_out := none }
      []).2 (by decide) (by decide)⟩

/-- C10: when no output filename is supplied, check fills in the input path
with ".png" appended; a supplied name is kept unchanged. -/
theorem C10_fid_out_default (args : Args) (fs : List String)
    (out : Args × List String) (h : check args fs = Except.ok out) :
    (args.fid_out = none → out.1.fid_out = some (args.fid ++ ".png")) ∧
    (∀ s, args.fid_out = some s → out.1.fid_out = some s) := by
  unfold check at h
  by_cases h1 : args.movie = false ∧ args.fid ∉ fs
  · rw [if_pos h1] at h; exact absurd h (by simp)
  · rw [if_neg h1] at h
    simp only [Except.ok.injEq] at h
    constructor
    · intro hnone
      rw [← h]
      simp [hnone]
    · intro s hs
      rw [← h]
      simp [hs]

/-- Witness for C10_fid_out_default at concrete invocations: a run without
`-f` gets the appended suffix, a run with `-f` keeps the supplied name. -/
theorem C10_witness :
    ({ fid := "m.vtk", cfg_fid := "config.py", movie := true, verbose := false,
       output := "out", fid_out := some "m.vtk.png" } : Args).fid_out =
      some ("m.vtk" ++ ".png") ∧
    ({ fid := "m.vtk", cfg_fid := "config.py", movie := true, verbose := false,
       output := "out", fid_out := some "chosen.png" } : Args).fid_out =
      some "chosen.png" :=
  ⟨(C10_fid_out_default
      { fid := "m.vtk", cfg_fid := "config.py", movie := true, verbose := false,
        output := "out", fid_out := none } ["m.vtk"] _ rfl).1 rfl,
   (C10_fid_out_default
      { fid := "m.vtk", cfg_fid := "config.py", movie := true, verbose := false,
        output := "out", fid_out := some "chosen.png" } ["m.vtk"] _ rfl).2
      "chosen.png" rfl⟩

/-! ### Claims about utils.py numeric helpers (C7, C9) -/

/-- The rounding claimed for myround: ceiling for "up", floor for "down",
round to nearest otherwise. -/
def claimedRounder (choice : Option String) (q : ℚ) : ℤ :=
  if choice = some "up" then ⌈q⌉
  else if choice = some "down" then ⌊q⌋
  else pyRound q

/-- pyRound is a round-to-nearest: it never strays more than half a unit from
its argument. -/
theorem pyRound_nearest (q : ℚ) : |q - (pyRound q : ℚ)| ≤ 1/2 := by
  have hfl : (⌊q⌋ : ℚ) ≤ q := Int.floor_le q
  have hfu : q < (⌊q⌋ : ℚ) + 1 := Int.lt_floor_add_one q
  unfold pyRound
  by_cases h1 : q - (⌊q⌋ : ℚ) < 1/2
  · rw [if_pos h1]
    rw [abs_le]
    constructor <;> linarith
  · rw [if_neg h1]
    by_cases h2 : (1:ℚ)/2 < q - (⌊q⌋ : ℚ)
    · rw [if_pos h2]
      rw [abs_le]
      push_cast
      constructor <;> linarith
    · rw [if_neg h2]
      have heq : q - (⌊q⌋ : ℚ) = 1/2 := le_antisymm (not_lt.mp h2) (not_lt.mp h1)
      by_cases h3 : ⌊q⌋ % 2 = 0
      · rw [if_pos h3]
        rw [abs_le]
        constructor <;> linarith
      · rw [if_neg h3]
        rw [abs_le]
        push_cast
        constructor <;> linarith

/-- C7: for a nonzero integer base, myround returns base times the selected
rounding of x / base, hence always an integer multiple of base; in the
default branch the selected rounding is a round-to-nearest. -/
theorem C7_myround_spec (x : ℚ) (base : ℤ) (choice : Option String)
    (h : base ≠ 0) :
    myround x base choice = base * claimedRounder choice (x / base) ∧
    (∃ k : ℤ, myround x base choice = base * k) ∧
    (choice ≠ some "up" → choice ≠ some "down" →
      |x / base - (claimedRounder choice (x / base) : ℚ)| ≤ 1/2) := by
  refine ⟨?_, ?_, ?_⟩
  · unfold myround claimedRounder
    by_cases hu : choice = some "up"
    · rw [if_pos hu, if_pos hu]
    · rw [if_neg hu, if_neg hu]
      by_cases hd : choice = some "down"
      · rw [if_pos hd, if_pos hd]
      · rw [if_neg hd, if_neg hd]
  · exact ⟨claimedRounder choice (x / base), by
      unfold myround claimedRounder
      by_cases hu : choice = some "up"
      · rw [if_pos hu, if_pos hu]
      · rw [if_neg hu, if_neg hu]
        by_cases hd : choice = some "down"
        · rw [if_pos hd, if_pos hd]
        · rw [if_neg hd, if_neg hd]⟩
  · intro hu hd
    unfold claimedRounder
    rw [if_neg hu, if_neg hd]
    exact pyRound_nearest (x / base)

/-- Witness for C7_myround_spec at x = 7/2, base = 3, default choice. -/
theorem C7_witness :
    myround (7/2) 3 none = 3 * claimedRounder none ((7/2) / 3) ∧
    (∃ k : ℤ, myround (7/2) 3 none = 3 * k) ∧
    ((none : Option String) ≠ some "up" → (none : Option String) ≠ some "down" →
      |(7:ℚ)/2 / 3 - (claimedRounder none ((7/2) / 3) : ℚ)| ≤ 1/2) :=
  C7_myround_spec (7/2) 3 none (by decide)

/-- C9: on a list of at least three coordinates, translate_point translates
by the offsets and then scales uniformly; the defaults give the identity on
the first three coordinates. -/
theorem C9_translate_point (d0 d1 d2 : ℚ) (rest : List ℚ) (x0 y0 z0 s : ℚ) :
    translate_point (d0 :: d1 :: d2 :: rest) x0 y0 z0 s =
      some [(d0 - x0) * s, (d1 - y0) * s, (d2 - z0) * s] ∧
    translate_point (d0 :: d1 :: d2 :: rest) 0 0 0 1 = some [d0, d1, d2] := by
  constructor
  · rfl
  · unfold translate_point
    norm_num

/-! ### utils.scale_input and the generated programmable-filter script (C3)

utils.scale_input substitutes defaults for None scale factors and interpolates
the remaining values into a script template; the host executes that script
over the dataset behind the filter's input.  The dataset is embedded as its
point list and active scalar array, and the script's arithmetic is embedded
verbatim: `pdi.GetBounds()` yields (xmin, xmax, ymin, ymax, zmin, zmax), the
interpolated `if {zero_origin}:` guard subtracts the x/y minima, and the
interpolated `if {scale_coords}:` guard is a Python truthiness test on the
numeric scale factor. -/

/-- A dataset as the script sees it: point coordinates and the active point
scalars. -/
structure VtkData where
  points : List (ℚ × ℚ × ℚ)
  scalars : List ℚ
deriving DecidableEq

/-- The first component of GetBounds: the minimum x over the points (VTK's
uninitialized-bounds placeholder for an empty dataset, never read by the
script's empty loop, is 1). -/
def boundsMinX : List (ℚ × ℚ × ℚ) → ℚ
  | [] => 1
  | p :: ps => (ps.map (fun q => q.1)).foldl min p.1

/-- The third component of GetBounds: the minimum y over the points. -/
def boundsMinY : List (ℚ × ℚ × ℚ) → ℚ
  | [] => 1
  | p :: ps => (ps.map (fun q => q.2.1)).foldl min p.2.1

/-- Python truthiness of a number: zero is falsy. -/
def truthy (q : ℚ) : Bool := decide (q ≠ 0)

/-- The script text built by scale_input, run by the host on a dataset: for
each point, subtract the x/y bounds minima when zero_origin was interpolated
as True, then multiply all three coordinates by scale_coords when that value
is truthy; rebuild the scalar array with every value multiplied by
scale_data. -/
def scale_input_script (scale_data scale_coords : ℚ) (zero_origin : Bool)
    (d : VtkData) : VtkData :=
  let min_x := boundsMinX d.points
  let min_y := boundsMinY d.points
  let newPoints := d.points.map (fun p =>
    let x := if zero_origin then p.1 - min_x else p.1
    let y := if zero_origin then p.2.1 - min_y else p.2.1
    let z := p.2.2
    if truthy scale_coords then (x * scale_coords, y * scale_coords, z * scale_coords)
    else (x, y, z))
  let newScalars := d.scalars.map (fun v => v * scale_data)
  { points := newPoints, scalars := newScalars }

/-- utils.scale_input: replace a None scale factor by 1, then run the
generated script (via things.programmable_filter) on the dataset. -/
def scale_input (scale_data scale_coords : Option ℚ) (zero_origin : Bool)
    (d : VtkData) : VtkData :=
  scale_input_script (scale_data.getD 1) (scale_coords.getD 1) zero_origin d

/-- C3 counterexample: with scale_coords = 0 the script's truthiness guard
skips coordinate scaling, so the output point is the unscaled (1, 2, 3)
rather than the claimed (1*0, 2*0, 3*0) = (0, 0, 0). -/
theorem C3_counterexample :
    (scale_input (some 1) (some 0) false ⟨[(1, 2, 3)], [5]⟩).points =
      [(1, 2, 3)] ∧
    ((1 : ℚ) * 0, (2 : ℚ) * 0, (3 : ℚ) * 0) ≠ ((1 : ℚ), (2 : ℚ), (3 : ℚ)) := by
  constructor
  · rfl
  · intro h
    have h1 := congrArg (fun p => p.1) h
    norm_num at h1

/-- C3 (amended): the script rescales exactly as claimed except that the
coordinate scaling is guarded by Python truthiness: each point is translated
by the bounds minima when zero_origin holds and multiplied by scale_coords
only when scale_coords is nonzero; every scalar is multiplied by scale_data
unconditionally; a None scale factor is replaced by 1. -/
theorem C3_scale_input_spec (sd sc : Option ℚ) (zo : Bool) (d : VtkData)
    (i : ℕ) :
    ((scale_input sd sc zo d).points.length = d.points.length ∧
     (scale_input sd sc zo d).scalars.length = d.scalars.length) ∧
    (scale_input sd sc zo d).scalars[i]? =
      (d.scalars[i]?).map (fun v => v * sd.getD 1) ∧
    (scale_input sd sc zo d).points[i]? =
      (d.points[i]?).map (fun p =>
        let x := if zo then p.1 - boundsMinX d.points else p.1
        let y := if zo then p.2.1 - boundsMinY d.points else p.2.1
        if sc.getD 1 ≠ 0 then
          (x * sc.getD 1, y * sc.getD 1, p.2.2 * sc.getD 1)
        else (x, y, p.2.2)) := by
  unfold scale_input scale_input_script
  dsimp only
  refine ⟨⟨by simp, by simp⟩, by simp, ?_⟩
  simp only [List.getElem?_map]
  rcases d.points[i]? with _ | p
  · rfl
  · dsimp only [Option.map]
    unfold truthy
    by_cases hsc : sc.getD 1 ≠ 0
    · rw [if_pos (by simpa using hsc), if_pos hsc]
    · rw [if_neg (by simpa using hsc), if_neg hsc]

/-! ### actions.delete_objects (C4)

The source iterates `[_[0] for _ in GetSources().keys]`.  `GetSources()`
returns a plain Python dict keyed by (registration name, id) pairs, and the
attribute access `.keys` — written without the call parentheses — evaluates
to the bound method object, not to the key view; iterating a bound method
raises TypeError before the loop body runs even once.  The embedding keeps
the distinction between the two Python values explicit. -/

/-- A Python value the comprehension may try to iterate: the key view
`d.keys()` of the sources dict, or the un-called bound method `d.keys`. -/
inductive PyDictAttr
  | keysView (l : List (String × Nat))
  | boundMethod
deriving DecidableEq

/-- Attribute access `d.keys` on a Python dict, with no call: the result is
the bound method object regardless of the dict's contents. -/
def dictKeysAttr (_d : List (String × Nat)) : PyDictAttr :=
  PyDictAttr.boundMethod

/-- Python iteration over such a value: a key view yields the keys, while a
bound method is not iterable and raises TypeError. -/
def pyIterate : PyDictAttr → Except String (List (String × Nat))
  | PyDictAttr.keysView l => Except.ok l
  | PyDictAttr.boundMethod =>
      Except.error "TypeError: builtin_function_or_method object is not iterable"

/-- Character-list test used to embed the Python substring operator `in`:
does the needle occur at the head of the haystack. -/
def charsLead : List Char → List Char → Bool
  | [], _ => true
  | _ :: _, [] => false
  | a :: as, b :: bs => a = b && charsLead as bs

/-- Does the needle occur anywhere in the haystack. -/
def charsContain (needle hay : List Char) : Bool :=
  match hay with
  | [] => charsLead needle []
  | _ :: rest => charsLead needle hay || charsContain needle rest

/-- Python `name in src` on strings. -/
def strContain (needle hay : String) : Bool :=
  charsContain needle.toList hay.toList

/-- The loop body of delete_objects as the docstring intends it, had the
iteration succeeded: walk the registration names, and for each one that
contains one of the identifiers delete the proxy registered under that name
(`break` leaves each name deleted at most once). -/
def deleteBySubstring (names1 : List String) (regNames : List String)
    (live : List (String × Nat)) : List (String × Nat) :=
  regNames.foldl (fun acc src =>
    if names1.any (fun n => strContain n src) then
      acc.filter (fun s => s.1 ≠ src)
    else acc) live

/-- actions.delete_objects: default the identifiers, then iterate
`GetSources().keys` — which raises TypeError, so the deletion loop below the
comprehension is never reached. -/
def delete_objects (names : Option (List String)) (sources : List (String × Nat)) :
    Except String (List (String × Nat)) :=
  let names1 := names.getD ["ruler", "point", "glyph"]
  match pyIterate (dictKeysAttr sources) with
  | Except.error e => Except.error e
  | Except.ok keys => Except.ok (deleteBySubstring names1 (keys.map (fun k => k.1)) sources)

/-- C4: delete_objects never deletes anything — on every call it raises
TypeError because the source iterates the un-called bound method
`GetSources().keys`; at the failing input below, a live source named
"ruler_1" that the claim (and the function's own docstring) says must be
deleted survives because the call aborts. -/
theorem C4_delete_objects_raises :
    delete_objects none [("ruler_1", 1), ("model.vtk", 2)] =
      Except.error "TypeError: builtin_function_or_method object is not iterable" ∧
    deleteBySubstring ["ruler", "point", "glyph"] ["ruler_1", "model.vtk"]
      [("ruler_1", 1), ("model.vtk", 2)] = [("model.vtk", 2)] := by
  constructor
  · rfl
  · rfl

/-! ### datafile.CartesianDataFile (C5, C6)

The host toolkit is an abstract oracle: opening a file or applying the
scaling filter yields an opaque handle, and point coordinates, the scalar
range and the origin the host assigns to a fresh Slice are functions of the
handle.  A CartesianDataFile owns the handle plus the two caches computed in
`__init__`. -/

/-- The host-toolkit oracle: the paraview operations datafile.py calls. -/
structure Host where
  openDataFile : String → Nat
  scaleFilterHandle : Nat → Option ℚ → Option ℚ → Bool → Nat
  fetchPoints : Nat → List (ℚ × ℚ × ℚ)
  scalarRange : Nat → ℚ × ℚ
  sliceOrigin : Nat → ℚ × ℚ × ℚ

/-- Python truthiness of an optional number: None and zero are falsy.  This
is the `if scale_data or scale_coords:` test of `__init__`. -/
def truthyOpt (v : Option ℚ) : Bool :=
  match v with
  | none => false
  | some q => decide (q ≠ 0)

/-- The state owned by an opened data file: the source handle, the cached
per-axis coordinate lists from _get_coordinates, and the cached scalar range
from _get_data_minmax. -/
structure CartesianDataFile where
  fid : String
  data : Nat
  data_coords : List ℚ × List ℚ × List ℚ
  data_bounds : ℚ × ℚ
deriving DecidableEq

/-- datafile._get_coordinates: fetch the points of a handle and split them
into the X, Y and Z lists. -/
def get_coordinates (host : Host) (h : Nat) : List ℚ × List ℚ × List ℚ :=
  let pts := host.fetchPoints h
  (pts.map (fun p => p.1), pts.map (fun p => p.2.1), pts.map (fun p => p.2.2))

/-- datafile.CartesianDataFile.__init__: open the file, replace the handle by
the scaling filter's output exactly when scale_data or scale_coords is
truthy, then cache the coordinates and the scalar range of the resulting
handle. -/
def CartesianDataFile.init (host : Host) (fid : String)
    (scale_data scale_coords : Option ℚ) (zero_origin : Bool) :
    CartesianDataFile :=
  let d0 := host.openDataFile fid
  let d := if truthyOpt scale_data || truthyOpt scale_coords then
             host.scaleFilterHandle d0 scale_data scale_coords zero_origin
           else d0
  { fid := fid, data := d,
    data_coords := get_coordinates host d,
    data_bounds := host.scalarRange d }

/-- The Slice proxy fields that depth_slice manipulates. -/
structure SliceProxy where
  sliceType : String
  normal : ℚ × ℚ × ℚ
  origin : ℚ × ℚ × ℚ
deriving DecidableEq

/-- The visibility effects of a depth_slice call. -/
structure SliceEffects where
  widgetsHidden : Bool
  sliceShown : Bool
  originalHidden : Bool
deriving DecidableEq

/-- datafile.CartesianDataFile.depth_slice: create a Slice of the data, set
its type to a plane with normal [0, 0, 1], keep the host-assigned origin's X
and Y but overwrite Z with the requested depth, hide the 3D widgets, show
the slice, and hide the original data exactly when hide_original.  The
method reads self and returns it unchanged alongside the new proxy. -/
def CartesianDataFile.depth_slice (host : Host) (self : CartesianDataFile)
    (depth : ℚ) (hide_original : Bool) :
    (SliceProxy × SliceEffects) × CartesianDataFile :=
  let assigned := host.sliceOrigin self.data
  let s0 : SliceProxy :=
    { sliceType := "Plane", normal := (0, 0, 1), origin := assigned }
  let o := s0.origin
  let s1 := { s0 with origin := (o.1, o.2.1, depth) }
  let eff : SliceEffects :=
    { widgetsHidden := true, sliceShown := true, originalHidden := hide_original }
  ((s1, eff), self)

/-- Python min over a list; empty input raises ValueError. -/
def pyMin : List ℚ → Except String ℚ
  | [] => Except.error "ValueError: min arg is an empty sequence"
  | x :: xs => Except.ok (xs.foldl min x)

/-- Python max over a list; empty input raises ValueError. -/
def pyMax : List ℚ → Except String ℚ
  | [] => Except.error "ValueError: max arg is an empty sequence"
  | x :: xs => Except.ok (xs.foldl max x)

/-- datafile.CartesianDataFile.stats: print min, max and length per axis and
the cached value bounds; a read-only report of the cached state. -/
def CartesianDataFile.stats (self : CartesianDataFile) :
    (Except String (List (ℚ × ℚ × ℕ)) × (ℚ × ℚ)) × CartesianDataFile :=
  let rep := do
    let c := self.data_coords
    let x1 ← pyMin c.1
    let x2 ← pyMax c.1
    let y1 ← pyMin c.2.1
    let y2 ← pyMax c.2.1
    let z1 ← pyMin c.2.2
    let z2 ← pyMax c.2.2
    Except.ok [(x1, x2, c.1.length), (y1, y2, c.2.1.length), (z1, z2, c.2.2.length)]
  ((rep, self.data_bounds), self)

/-- datafile.CartesianDataFile.center: the per-axis midpoints
(max + min) / 2 of the cached coordinates. -/
def CartesianDataFile.center (self : CartesianDataFile) :
    Except String (List ℚ) × CartesianDataFile :=
  (do
    let c := self.data_coords
    let x1 ← pyMin c.1
    let x2 ← pyMax c.1
    let y1 ← pyMin c.2.1
    let y2 ← pyMax c.2.1
    let z1 ← pyMin c.2.2
    let z2 ← pyMax c.2.2
    Except.ok [(x2 + x1) / 2, (y2 + y1) / 2, (z2 + z1) / 2], self)

/-- C5: every depth slice is a plane with normal (0, 0, 1) whose origin keeps
the host-assigned X and Y but has Z equal to the requested depth; the slice
is shown and the original data is hidden exactly when hide_original. -/
theorem C5_depth_slice_spec (host : Host) (cdf : CartesianDataFile)
    (depth : ℚ) (hide_original : Bool) :
    let r := cdf.depth_slice host depth hide_original
    r.1.1.sliceType = "Plane" ∧
    r.1.1.normal = (0, 0, 1) ∧
    r.1.1.origin = ((host.sliceOrigin cdf.data).1,
                    (host.sliceOrigin cdf.data).2.1, depth) ∧
    r.1.2.sliceShown = true ∧
    (r.1.2.originalHidden = true ↔ hide_original = true) := by
  refine ⟨rfl, rfl, rfl, rfl, Iff.rfl⟩

/-- C6: after construction the handle equals the scaling filter's output
exactly when scale_data or scale_coords is truthy (and the opened handle
otherwise), the caches are those of that final handle, and depth_slice,
stats and center all return the record unchanged. -/
theorem C6_state_mutation (host : Host) (fid : String)
    (sd sc : Option ℚ) (zo : Bool) (depth : ℚ) (ho : Bool) :
    let cdf := CartesianDataFile.init host fid sd sc zo
    (cdf.data = if truthyOpt sd || truthyOpt sc then
        host.scaleFilterHandle (host.openDataFile fid) sd sc zo
      else host.openDataFile fid) ∧
    cdf.data_coords = get_coordinates host cdf.data ∧
    cdf.data_bounds = host.scalarRange cdf.data ∧
    (cdf.depth_slice host depth ho).2 = cdf ∧
    cdf.stats.2 = cdf ∧
    cdf.center.2 = cdf := by
  refine ⟨rfl, rfl, rfl, rfl, rfl, rfl⟩

/-! ### utils.normal_to_angle (C8)

`math.atan2` is embedded by its standard case analysis over the reals, and
normal_to_angle converts the result to degrees.  The correctness statement
identifies the radian value with the argument of the complex number x + y i,
i.e. with the angle of the vector (x, y). -/

/-- math.atan2 over the reals: `atan2 y x` is the angle of (x, y). -/
noncomputable def atan2 (y x : ℝ) : ℝ :=
  if 0 < x then Real.arctan (y / x)
  else if x < 0 then
    (if 0 ≤ y then Real.arctan (y / x) + Real.pi
     else Real.arctan (y / x) - Real.pi)
  else
    (if 0 < y then Real.pi / 2 else if y < 0 then -(Real.pi / 2) else 0)

/-- utils.normal_to_angle: `math.atan2(y, x) * 180 / math.pi`, a pure
function of its two arguments. -/
noncomputable def normal_to_angle (x y : ℝ) : ℝ :=
  atan2 y x * 180 / Real.pi

/-- Auxiliary algebra: the square root appearing under arctan's cosine and
sine, rewritten over the vector norm. -/
theorem sqrt_one_add_div_sq (x y : ℝ) (hx : x ≠ 0) :
    Real.sqrt (1 + (y / x) ^ 2) = Real.sqrt (x ^ 2 + y ^ 2) / |x| := by
  have h1 : 1 + (y / x) ^ 2 = (x ^ 2 + y ^ 2) / x ^ 2 := by
    field_simp
  rw [h1, Real.sqrt_div (by positivity) (x ^ 2), Real.sqrt_sq_eq_abs]

/-- The cosine and sine of atan2: it really is the angle of (x, y). -/
theorem cos_sin_atan2 (y x : ℝ) (h : x ≠ 0 ∨ y ≠ 0) :
    Real.cos (atan2 y x) = x / Real.sqrt (x ^ 2 + y ^ 2) ∧
    Real.sin (atan2 y x) = y / Real.sqrt (x ^ 2 + y ^ 2) := by
  have hsum : (0:ℝ) < x ^ 2 + y ^ 2 := by
    rcases h with h | h
    · have : (0:ℝ) < x ^ 2 := by positivity
      nlinarith [sq_nonneg y]
    · have : (0:ℝ) < y ^ 2 := by positivity
      nlinarith [sq_nonneg x]
  have hs : (0:ℝ) < Real.sqrt (x ^ 2 + y ^ 2) := Real.sqrt_pos.mpr hsum
  unfold atan2
  by_cases hx1 : 0 < x
  · rw [if_pos hx1]
    have hd := sqrt_one_add_div_sq x y hx1.ne'
    rw [abs_of_pos hx1] at hd
    constructor
    · rw [Real.cos_arctan, hd]
      field_simp
    · rw [Real.sin_arctan, hd]
      field_simp
  · rw [if_neg hx1]
    by_cases hx2 : x < 0
    · rw [if_pos hx2]
      have hd := sqrt_one_add_div_sq x y hx2.ne
      rw [abs_of_neg hx2] at hd
      have hcos : Real.cos (Real.arctan (y / x)) =
          -x / Real.sqrt (x ^ 2 + y ^ 2) := by
        rw [Real.cos_arctan, hd]
        field_simp
      have hsin : Real.sin (Real.arctan (y / x)) =
          -y / Real.sqrt (x ^ 2 + y ^ 2) := by
        rw [Real.sin_arctan, hd]
        rw [div_div_eq_mul_div, mul_neg, div_mul_cancel₀ y hx2.ne, neg_div]
      by_cases hy : 0 ≤ y
      · rw [if_pos hy]
        constructor
        · rw [Real.cos_add_pi, hcos]; ring
        · rw [Real.sin_add_pi, hsin]; ring
      · rw [if_neg hy]
        constructor
        · rw [Real.cos_sub_pi, hcos]; ring
        · rw [Real.sin_sub_pi, hsin]; ring
    · have hx0 : x = 0 := le_antisymm (not_lt.mp hx1) (not_lt.mp hx2)
      rw [if_neg hx2]
      have hy : y ≠ 0 := by
        rcases h with h | h
        · exact absurd hx0 h
        · exact h
      have hshape : Real.sqrt (x ^ 2 + y ^ 2) = |y| := by
        rw [hx0]
        simp [Real.sqrt_sq_eq_abs]
      by_cases hy1 : 0 < y
      · rw [if_pos hy1]
        constructor
        · rw [Real.cos_pi_div_two, hx0]
          simp
        · rw [Real.sin_pi_div_two, hshape, abs_of_pos hy1]
          field_simp
      · rw [if_neg hy1]
        have hy2 : y < 0 := lt_of_le_of_ne (not_lt.mp hy1) hy
        rw [if_pos hy2]
        constructor
        · rw [Real.cos_neg, Real.cos_pi_div_two, hx0]
          simp
        · rw [Real.sin_neg, Real.sin_pi_div_two, hshape, abs_of_neg hy2]
          field_simp

/-- atan2 lands in the half-open interval (-pi, pi]. -/
theorem atan2_mem_Ioc (y x : ℝ) :
    atan2 y x ∈ Set.Ioc (-Real.pi) Real.pi := by
  have hpi : (0:ℝ) < Real.pi := Real.pi_pos
  have hub : ∀ t : ℝ, Real.arctan t < Real.pi / 2 := Real.arctan_lt_pi_div_two
  have hlb : ∀ t : ℝ, -(Real.pi / 2) < Real.arctan t := Real.neg_pi_div_two_lt_arctan
  unfold atan2
  by_cases hx1 : 0 < x
  · rw [if_pos hx1]
    exact ⟨by linarith [hlb (y / x)], by linarith [hub (y / x)]⟩
  · rw [if_neg hx1]
    by_cases hx2 : x < 0
    · rw [if_pos hx2]
      by_cases hy : 0 ≤ y
      · rw [if_pos hy]
        have harg : Real.arctan (y / x) ≤ 0 := by
          have hq : y / x ≤ 0 := div_nonpos_of_nonneg_of_nonpos hy hx2.le
          have := Real.arctan_strictMono.monotone hq
          rw [Real.arctan_zero] at this
          exact this
        exact ⟨by linarith [hlb (y / x)], by linarith⟩
      · rw [if_neg hy]
        have harg : 0 < Real.arctan (y / x) := by
          have hq : 0 < y / x := div_pos_iff.mpr (Or.inr ⟨not_le.mp hy, hx2⟩)
          have := Real.arctan_strictMono hq
          rw [Real.arctan_zero] at this
          exact this
        exact ⟨by linarith, by linarith [hub (y / x)]⟩
    · rw [if_neg hx2]
      by_cases hy1 : 0 < y
      · rw [if_pos hy1]
        exact ⟨by linarith, by linarith⟩
      · rw [if_neg hy1]
        by_cases hy2 : y < 0
        · rw [if_pos hy2]
          exact ⟨by linarith, by linarith⟩
        · rw [if_neg hy2]
          exact ⟨by linarith, by linarith⟩

/-- atan2 computes the argument of the corresponding complex number. -/
theorem atan2_eq_arg (x y : ℝ) (h : ¬(x = 0 ∧ y = 0)) :
    atan2 y x = Complex.arg ((x : ℂ) + (y : ℂ) * Complex.I) := by
  have h' : x ≠ 0 ∨ y ≠ 0 := by tauto
  have hsum : (0:ℝ) < x ^ 2 + y ^ 2 := by
    rcases h' with h1 | h1
    · have h2 : (0:ℝ) < x ^ 2 := by positivity
      nlinarith [sq_nonneg y]
    · have h2 : (0:ℝ) < y ^ 2 := by positivity
      nlinarith [sq_nonneg x]
  have hr : (0:ℝ) < Real.sqrt (x ^ 2 + y ^ 2) := Real.sqrt_pos.mpr hsum
  have hc := (cos_sin_atan2 y x h').1
  have hsn := (cos_sin_atan2 y x h').2
  have key : (x : ℂ) + (y : ℂ) * Complex.I =
      (Real.sqrt (x ^ 2 + y ^ 2) : ℝ) *
        ((Real.cos (atan2 y x) : ℝ) + (Real.sin (atan2 y x) : ℝ) * Complex.I) := by
    rw [hc, hsn]
    push_cast
    apply Complex.ext
    · simp [Complex.add_re, Complex.mul_re]
      field_simp
    · simp [Complex.add_im, Complex.mul_im]
      field_simp
  rw [key, Complex.arg_real_mul _ hr, Complex.ofReal_cos, Complex.ofReal_sin,
    Complex.arg_cos_add_sin_mul_I (atan2_mem_Ioc y x)]

/-- C8: normal_to_angle is atan2(y, x) converted to degrees, and that value
is the angle of the vector (x, y) — the argument of x + y i — in degrees. -/
theorem C8_normal_to_angle_spec (x y : ℝ) (h : ¬(x = 0 ∧ y = 0)) :
    normal_to_angle x y = atan2 y x * 180 / Real.pi ∧
    normal_to_angle x y =
      Complex.arg ((x : ℂ) + (y : ℂ) * Complex.I) * 180 / Real.pi := by
  refine ⟨rfl, ?_⟩
  unfold normal_to_angle
  rw [atan2_eq_arg x y h]

/-- Witness for C8_normal_to_angle_spec at the vector (1, 0). -/
theorem C8_witness :
    normal_to_angle 1 0 = atan2 0 1 * 180 / Real.pi ∧
    normal_to_angle 1 0 =
      Complex.arg (((1:ℝ) : ℂ) + ((0:ℝ) : ℂ) * Complex.I) * 180 / Real.pi :=
  C8_normal_to_angle_spec 1 0 (by norm_num)

end Pyrateview
